import Mathlib

/-!
Verification of the Mangata factorization-problem pallet (`src/src/lib.rs`)
against its specification.

The pallet body (`submit_problem`, `resolve_problem`, the `Problem` record,
the `ProblemsMap` storage and the errors) is embedded from the Rust source.
External collaborators that are not part of this repository — the
`Currency`/`ReservableCurrency` ledger implementation, the `Imbalance::ration`
split, the treasury address derivation, the primality library
`glass_pumpkin::prime::check`, and the host dispatcher that applies each call
atomically — are modelled from the specification and marked as such.

Machine integers: `u128` values are carried as `Nat`; the only place the
128-bit bound matters is the overflow-checked multiply `a.checked_mul(b)`,
embedded as `checked_mul` with an explicit `2 ^ 128` bound.
-/

namespace Mangata

/-- `type Number = u128` — the number to find a solution for. -/
abbrev Number := Nat

/-- Account identifiers (`T::AccountId`), abstracted as naturals. -/
abbrev AccountId := Nat

/-- Ledger balances (`BalanceOf<T>`), abstracted as naturals. -/
abbrev Balance := Nat

/-- One past the largest `u128` value. -/
def U128_LIMIT : Nat := 2 ^ 128

/-- A problem, as stored on chain (`struct Problem<T>` in the source). -/
structure Problem where
  /-- The number to resolve. -/
  number : Number
  /-- Amount of reward. -/
  reward : Balance
  /-- The solution to the problem (when resolved). -/
  solution : Option (Nat × Nat)
  /-- Account id of the submitter. -/
  submitter : AccountId
  /-- Account id of the resolver (when resolved). -/
  resolver : Option AccountId
  deriving DecidableEq, Repr

/-- The pallet's error enum (`decl_error!`), extended with one constructor
standing for any ledger-originated failure (`T::Currency::reserve` /
`T::Currency::transfer` errors), which the source propagates unchanged
with `?`. -/
inductive Error where
  /-- Trying to resolve a problem that doesn't exist. -/
  | InexistentNumber
  /-- Wrong answer to a problem. -/
  | WrongAnswer
  /-- Problem was already resolved. -/
  | AlreadyResolved
  /-- Problem was already submitted. -/
  | AlreadySubmitted
  /-- A failure reported by the ledger (reserve or transfer). -/
  | LedgerFailure
  deriving DecidableEq, Repr

/-- Pointwise update of a balance table. -/
def setBal (f : AccountId → Balance) (a : AccountId) (v : Balance) : AccountId → Balance :=
  fun x => if x = a then v else f x

/-- The ledger state of the external `Currency`/`ReservableCurrency`
collaborator: a free balance and a reserved balance per account. -/
structure Ledger where
  free : AccountId → Balance
  reserved : AccountId → Balance

/-- Modelled from the spec: `reserve(account, amount)` earmarks `amount`
against the account, failing (with the failure propagated unchanged, e.g.
insufficient balance) when the free balance does not cover it. -/
def Ledger.reserve (l : Ledger) (who : AccountId) (amount : Balance) : Option Ledger :=
  if amount ≤ l.free who then
    some { free := setBal l.free who (l.free who - amount),
           reserved := setBal l.reserved who (l.reserved who + amount) }
  else none

/-- Modelled from the spec: `unreserve(account, amount)` moves reserved funds
back to the free balance (at most what is actually reserved) and never fails. -/
def Ledger.unreserve (l : Ledger) (who : AccountId) (amount : Balance) : Ledger :=
  { free := setBal l.free who (l.free who + min amount (l.reserved who)),
    reserved := setBal l.reserved who (l.reserved who - min amount (l.reserved who)) }

/-- Modelled from the spec: `transfer(from, to, amount, retain_minimum)` moves
free funds, failing when the sender cannot cover the amount or would be left
below the ledger's existential minimum `ed` (the `KeepAlive` requirement). -/
def Ledger.transfer (ed : Balance) (l : Ledger) (src dst : AccountId) (amount : Balance) :
    Option Ledger :=
  if amount ≤ l.free src ∧ ed ≤ l.free src - amount then
    some { free := setBal (setBal l.free src (l.free src - amount)) dst
                     (setBal l.free src (l.free src - amount) dst + amount),
           reserved := l.reserved }
  else none

/-- Modelled from the spec: the treasury account address, derived
deterministically from the fixed module id `Treasury`
(`PALLET_ID.into_account()`); a fixed account distinct from none in
particular, carried as an arbitrary constant. -/
def treasury_account : AccountId := 1000000

/-- Modelled from the spec: the PrimalityOracle. The source's `is_prime`
calls `glass_pumpkin::prime::check`, whose body is outside this repository;
per the spec it is a pure, deterministic decision of primality that returns
`false` below 2. -/
def is_prime (n : Nat) : Bool := decide (Nat.Prime n)

/-- `a.checked_mul(b)` on the `u128` domain: `none` exactly when the exact
product overflows 128 bits. -/
def checked_mul (a b : Nat) : Option Nat :=
  if a * b < U128_LIMIT then some (a * b) else none

/-- Modelled from the spec: `T::Currency::burn(reward)` followed by
`imbalance.ration(80, 20)` splits the reward into the resolver share
`reward * 80 / 100` (integer floor division) and the treasury share
`reward - reward * 80 / 100`. -/
def ration80_20 (r : Balance) : Balance × Balance :=
  (r * 80 / 100, r - r * 80 / 100)

/-- The pallet's persistent state: the `ProblemsMap` storage map
(`Number => Option<Problem>`, identity hasher) together with the ledger. -/
structure State where
  problems : Number → Option Problem
  ledger : Ledger

/-- Write-back of one key of the storage map (`StorageMap::insert`, and the
write-back step of `StorageMap::mutate`). -/
def mapInsert (m : Number → Option Problem) (k : Number) (v : Option Problem) :
    Number → Option Problem :=
  fun x => if x = k then v else m x

/-- `submit_problem(origin, number, reward)` from the source:
fail `AlreadySubmitted` when the key is present, then reserve the reward
(propagating a ledger failure), then insert the fresh unresolved record. -/
def submit_problem (s : State) (who : AccountId) (number : Number) (reward : Balance) :
    Except Error State :=
  if (s.problems number).isSome then
    .error .AlreadySubmitted
  else
    match s.ledger.reserve who reward with
    | none => .error .LedgerFailure
    | some l =>
        .ok { problems := mapInsert s.problems number
                (some { number := number, reward := reward, solution := none,
                        submitter := who, resolver := none }),
              ledger := l }

/-- `resolve_problem(origin, number, a, b)` from the source. The final
`ProblemsMap::mutate(number, |_| Problem { .. })` call passes a closure that
ignores its `&mut Option<Problem>` argument; `StorageMap::mutate` only
returns the closure's result (here discarded) and writes back the value the
closure was given, so the fetched record is stored back unchanged — the
freshly built resolved record never reaches storage. -/
def resolve_problem (ed : Balance) (s : State) (who : AccountId) (number a b : Nat) :
    Except Error State :=
  match s.problems number with
  | none => .error .InexistentNumber
  | some problem =>
    if problem.resolver.isSome then .error .AlreadyResolved
    else
      match checked_mul a b with
      | none => .error .WrongAnswer
      | some multiplied =>
        if (multiplied != number) || !is_prime a || !is_prime b then
          .error .WrongAnswer
        else
          match Ledger.transfer ed (s.ledger.unreserve problem.submitter problem.reward)
              problem.submitter who (ration80_20 problem.reward).1 with
          | none => .error .LedgerFailure
          | some l2 =>
            match Ledger.transfer ed l2 problem.submitter treasury_account
                (ration80_20 problem.reward).2 with
            | none => .error .LedgerFailure
            | some l3 =>
              .ok { problems := mapInsert s.problems number (some problem), ledger := l3 }

/-- Modelled from the spec: the host dispatcher applies a `submit_problem`
call atomically — on an error no effect of the call is retained. -/
def dispatch_submit (s : State) (who : AccountId) (number : Number) (reward : Balance) :
    Except Error Unit × State :=
  match submit_problem s who number reward with
  | .ok s' => (.ok (), s')
  | .error e => (.error e, s)

/-- Modelled from the spec: the host dispatcher applies a `resolve_problem`
call atomically — on an error no effect of the call is retained. -/
def dispatch_resolve (ed : Balance) (s : State) (who : AccountId) (number a b : Nat) :
    Except Error Unit × State :=
  match resolve_problem ed s who number a b with
  | .ok s' => (.ok (), s')
  | .error e => (.error e, s)

/-! ### Concrete test fixtures -/

/-- A starting ledger: account 1 holds 1000 free, accounts 2 and 3 hold 50,
nothing is reserved. -/
def ledger0 : Ledger :=
  { free := fun a => if a = 1 then 1000 else if a = 2 then 50 else if a = 3 then 50 else 0,
    reserved := fun _ => 0 }

/-- The empty starting state. -/
def state0 : State := { problems := fun _ => none, ledger := ledger0 }

/-- The state after account 1 submits problem 15 with reward 100. -/
def state1 : State :=
  match submit_problem state0 1 15 100 with
  | .ok s => s
  | .error _ => state0

/-- The state after account 2 then resolves problem 15 with factors (3, 5)
(existential minimum 1). -/
def state2 : State :=
  match resolve_problem 1 state1 2 15 3 5 with
  | .ok s => s
  | .error _ => state1

/-! ### Helper lemmas -/

theorem setBal_same (f : AccountId → Balance) (a : AccountId) (v : Balance) :
    setBal f a v a = v := by
  simp [setBal]

theorem setBal_other (f : AccountId → Balance) (a : AccountId) (v : Balance)
    (x : AccountId) (h : x ≠ a) : setBal f a v x = f x := by
  simp [setBal, h]

theorem unreserve_free_other (l : Ledger) (who x : AccountId) (amt : Balance)
    (h : x ≠ who) : (l.unreserve who amt).free x = l.free x := by
  simp [Ledger.unreserve, setBal, h]

theorem transfer_some_free_dst (ed : Balance) (l l' : Ledger) (src dst : AccountId)
    (amt : Balance) (h : Ledger.transfer ed l src dst amt = some l') (hne : dst ≠ src) :
    l'.free dst = l.free dst + amt := by
  unfold Ledger.transfer at h
  split at h
  · cases h
    simp [setBal, hne]
  · cases h

theorem transfer_some_free_other (ed : Balance) (l l' : Ledger) (src dst x : AccountId)
    (amt : Balance) (h : Ledger.transfer ed l src dst amt = some l')
    (h1 : x ≠ src) (h2 : x ≠ dst) : l'.free x = l.free x := by
  unfold Ledger.transfer at h
  split at h
  · cases h
    simp [setBal, h1, h2]
  · cases h

theorem transfer_some_reserved (ed : Balance) (l l' : Ledger) (src dst : AccountId)
    (amt : Balance) (h : Ledger.transfer ed l src dst amt = some l') :
    l'.reserved = l.reserved := by
  unfold Ledger.transfer at h
  split at h
  · cases h
    rfl
  · cases h

/-- Inversion of a successful `resolve_problem`: the record exists and is
unresolved, the factor checks all passed, both transfers went through, and
the resulting state writes the fetched record back unchanged. -/
theorem resolve_ok_inv (ed : Balance) (s : State) (who : AccountId) (number a b : Nat)
    (s' : State) (h : resolve_problem ed s who number a b = .ok s') :
    ∃ p l2 l3, s.problems number = some p ∧ p.resolver = none ∧
      a * b < U128_LIMIT ∧ a * b = number ∧ is_prime a = true ∧ is_prime b = true ∧
      Ledger.transfer ed (s.ledger.unreserve p.submitter p.reward) p.submitter who
        (ration80_20 p.reward).1 = some l2 ∧
      Ledger.transfer ed l2 p.submitter treasury_account
        (ration80_20 p.reward).2 = some l3 ∧
      s' = { problems := mapInsert s.problems number (some p), ledger := l3 } := by
  unfold resolve_problem at h
  split at h
  · cases h
  next p hp =>
    split at h
    · cases h
    next hres =>
      split at h
      · cases h
      next m hm =>
        split at h
        · cases h
        next hcond =>
          split at h
          · cases h
          next l2 h2 =>
            split at h
            · cases h
            next l3 h3 =>
              cases h
              unfold checked_mul at hm
              split at hm
              next hlt =>
                injection hm with hm
                subst hm
                simp only [Bool.or_eq_true, bne_iff_ne, ne_eq, Bool.not_eq_true',
                  not_or, not_not, Bool.not_eq_false] at hcond
                obtain ⟨⟨hmn, hpa⟩, hpb⟩ := hcond
                exact ⟨p, l2, l3, hp, Option.not_isSome_iff_eq_none.mp hres, hlt,
                  hmn, hpa, hpb, h2, h3, rfl⟩
              · cases hm

/-! ### Claim theorems -/

/-- C1: the claim fails on the code. After account 2 successfully resolves
problem 15 (first conjunct), a second `resolve_problem` on the same number by
account 3 succeeds again instead of failing with `AlreadyResolved` (second
conjunct): the `mutate` call never stores the resolver, so the
`AlreadyResolved` guard can never fire. -/
theorem c1_second_resolve_succeeds :
    (resolve_problem 1 state1 2 15 3 5).isOk = true ∧
    (resolve_problem 1 state2 3 15 3 5).isOk = true :=
  ⟨rfl, rfl⟩

/-- C2: the claim fails on the code. The first conjunct shows
`resolve_problem(caller := 2, number := 15, a := 3, b := 5)` succeeds on
`state1`; the second shows the record stored under 15 afterwards still has
`solution = none` and `resolver = none` — the resolved record built in the
source is discarded, not stored. -/
theorem c2_resolved_record_not_stored :
    (resolve_problem 1 state1 2 15 3 5).isOk = true ∧
    state2.problems 15
      = some { number := 15, reward := 100, solution := none, submitter := 1,
               resolver := none } :=
  ⟨rfl, rfl⟩

/-- C3: every error outcome of the dispatched `resolve_problem` call leaves
the submitter's reserved balance (indeed the whole reserved table) and the
stored Problem record identical to their pre-call values. -/
theorem c3_error_leaves_state (ed : Balance) (s : State) (who : AccountId)
    (number a b : Nat) (e : Error)
    (h : (dispatch_resolve ed s who number a b).1 = .error e) :
    (dispatch_resolve ed s who number a b).2.ledger.reserved = s.ledger.reserved ∧
    (dispatch_resolve ed s who number a b).2.problems number = s.problems number := by
  unfold dispatch_resolve at h ⊢
  cases hr : resolve_problem ed s who number a b with
  | ok s' => rw [hr] at h; simp at h
  | error e' => exact ⟨rfl, rfl⟩

/-- A state holding the unresolved problem 15 whose submitter (account 1)
has no free balance, only the reserved reward. -/
def stateT : State :=
  { problems := fun k => if k = 15 then
      some { number := 15, reward := 100, solution := none, submitter := 1,
             resolver := none }
      else none,
    ledger := { free := fun _ => 0, reserved := fun a => if a = 1 then 100 else 0 } }

/-- Witness for C3: with existential minimum 30, the first transfer of the
resolver share fails (it would leave the submitter at 20 < 30), and the
dispatched call retains neither the unreserve nor any other effect. -/
theorem c3_error_leaves_state_witness :
    (dispatch_resolve 30 stateT 2 15 3 5).2.ledger.reserved = stateT.ledger.reserved ∧
    (dispatch_resolve 30 stateT 2 15 3 5).2.problems 15 = stateT.problems 15 :=
  c3_error_leaves_state 30 stateT 2 15 3 5 Error.LedgerFailure rfl

/-- C6: when the exact product of the proposed factors does not fit in 128
bits, `resolve_problem` on an existing unresolved number fails with
`WrongAnswer` — the checked multiply reports overflow before any state is
touched, so nothing panics and no wrapped product is ever compared. -/
theorem c6_overflow_wrong_answer (ed : Balance) (s : State) (who : AccountId)
    (number a b : Nat) (p : Problem) (hp : s.problems number = some p)
    (hr : p.resolver = none) (hov : U128_LIMIT ≤ a * b) :
    resolve_problem ed s who number a b = .error .WrongAnswer := by
  have hnot : ¬ (a * b < U128_LIMIT) := Nat.not_lt.mpr hov
  simp [resolve_problem, hp, hr, checked_mul, hnot]

/-- Witness for C6: `2 ^ 127 * 2 ^ 127` overflows `u128`, so resolving the
open problem 15 with these factors fails with `WrongAnswer`. -/
theorem c6_overflow_wrong_answer_witness :
    resolve_problem 1 state1 2 15 (2 ^ 127) (2 ^ 127) = .error .WrongAnswer :=
  c6_overflow_wrong_answer 1 state1 2 15 (2 ^ 127) (2 ^ 127)
    { number := 15, reward := 100, solution := none, submitter := 1, resolver := none }
    rfl rfl (by norm_num [U128_LIMIT])

/-- C7: submitting any number already present in the store — whatever the
reward or caller — fails with `AlreadySubmitted`, and the dispatched call
performs no reservation and no store mutation (the post-state is the
pre-state). -/
theorem c7_duplicate_submit (s : State) (who : AccountId) (number : Number)
    (reward : Balance) (h : (s.problems number).isSome = true) :
    dispatch_submit s who number reward = (.error .AlreadySubmitted, s) := by
  unfold dispatch_submit submit_problem
  rw [if_pos h]

/-- Witness for C7: problem 15 is present in `state1` (already resolved or
not makes no difference), so account 3's fresh submission of 15 is refused
and the state is untouched. -/
theorem c7_duplicate_submit_witness :
    dispatch_submit state1 3 15 7 = (.error .AlreadySubmitted, state1) :=
  c7_duplicate_submit state1 3 15 7 rfl

/-- C4: a successful `resolve_problem` pays the resolver exactly
`reward * 80 / 100` (integer floor division) and the treasury exactly the
remainder `reward - reward * 80 / 100`, and the two shares always sum back
to the reward — for every reward value, including ones 100 does not divide. -/
theorem c4_reward_split (ed : Balance) (s : State) (who : AccountId)
    (number a b : Nat) (p : Problem) (s' : State)
    (hp : s.problems number = some p)
    (hws : who ≠ p.submitter) (hwt : who ≠ treasury_account)
    (hst : p.submitter ≠ treasury_account)
    (h : resolve_problem ed s who number a b = .ok s') :
    s'.ledger.free who = s.ledger.free who + p.reward * 80 / 100 ∧
    s'.ledger.free treasury_account
      = s.ledger.free treasury_account + (p.reward - p.reward * 80 / 100) ∧
    p.reward * 80 / 100 + (p.reward - p.reward * 80 / 100) = p.reward := by
  obtain ⟨q, l2, l3, hq, -, -, -, -, -, h2, h3, hs'⟩ :=
    resolve_ok_inv ed s who number a b s' h
  rw [hp] at hq
  injection hq with hq
  subst hq
  subst hs'
  have hle : p.reward * 80 / 100 ≤ p.reward := by
    calc p.reward * 80 / 100 ≤ p.reward * 100 / 100 :=
          Nat.div_le_div_right (Nat.mul_le_mul_left _ (by norm_num))
      _ = p.reward := Nat.mul_div_cancel p.reward (by norm_num)
  refine ⟨?_, ?_, Nat.add_sub_cancel' hle⟩
  · have e3 : l3.free who = l2.free who :=
      transfer_some_free_other ed l2 l3 p.submitter treasury_account who _ h3 hws hwt
    have e2 : l2.free who
        = (s.ledger.unreserve p.submitter p.reward).free who + (ration80_20 p.reward).1 :=
      transfer_some_free_dst ed _ l2 p.submitter who _ h2 hws
    have e1 : (s.ledger.unreserve p.submitter p.reward).free who = s.ledger.free who :=
      unreserve_free_other s.ledger p.submitter who p.reward hws
    simp only [e3, e2, e1]
    rfl
  · have e3 : l3.free treasury_account = l2.free treasury_account + (ration80_20 p.reward).2 :=
      transfer_some_free_dst ed l2 l3 p.submitter treasury_account _ h3 (Ne.symm hst)
    have e2 : l2.free treasury_account
        = (s.ledger.unreserve p.submitter p.reward).free treasury_account :=
      transfer_some_free_other ed _ l2 p.submitter who treasury_account _ h2
        (Ne.symm hst) (Ne.symm hwt)
    have e1 : (s.ledger.unreserve p.submitter p.reward).free treasury_account
        = s.ledger.free treasury_account :=
      unreserve_free_other s.ledger p.submitter treasury_account p.reward (Ne.symm hst)
    simp only [e3, e2, e1]
    rfl

/-- Witness for C4: resolving problem 15 (reward 100) pays account 2 exactly
80 and the treasury exactly 20, and 80 + 20 = 100. -/
theorem c4_reward_split_witness :
    state2.ledger.free 2 = state1.ledger.free 2 + 100 * 80 / 100 ∧
    state2.ledger.free treasury_account
      = state1.ledger.free treasury_account + (100 - 100 * 80 / 100) ∧
    100 * 80 / 100 + (100 - 100 * 80 / 100) = 100 :=
  c4_reward_split 1 state1 2 15 3 5
    { number := 15, reward := 100, solution := none, submitter := 1, resolver := none }
    state2 rfl (by decide) (by decide) (by decide) rfl

/-- The data-model invariant of section 3: any stored non-`None` solution is
a pair of primes (per the PrimalityOracle) whose exact product is the stored
number. -/
def SolutionInvariant (s : State) : Prop :=
  ∀ n p x y, s.problems n = some p → p.solution = some (x, y) →
    x * y = p.number ∧ is_prime x = true ∧ is_prime y = true

/-- C5: the stored-solution invariant is preserved by every successful
`submit_problem` (which inserts `solution = none`) and by every successful
`resolve_problem` (which — the `mutate` closure being a no-op — writes the
fetched record back unchanged). Failing calls return no state at all. -/
theorem c5_solution_invariant_preserved (ed : Balance) (s : State)
    (hinv : SolutionInvariant s) :
    (∀ who number reward s', submit_problem s who number reward = .ok s' →
      SolutionInvariant s') ∧
    (∀ who number a b s', resolve_problem ed s who number a b = .ok s' →
      SolutionInvariant s') := by
  constructor
  · intro who number reward s' h
    unfold submit_problem at h
    split at h
    · cases h
    · split at h
      · cases h
      next l hres =>
        cases h
        intro n p x y hp hsol
        simp only [mapInsert] at hp
        by_cases hn : n = number
        · rw [if_pos hn] at hp
          injection hp with hp
          subst hp
          cases hsol
        · rw [if_neg hn] at hp
          exact hinv n p x y hp hsol
  · intro who number a b s' h
    obtain ⟨q, l2, l3, hq, -, -, -, -, -, -, -, hs'⟩ :=
      resolve_ok_inv ed s who number a b s' h
    subst hs'
    intro n p x y hp hsol
    simp only [mapInsert] at hp
    by_cases hn : n = number
    · rw [if_pos hn] at hp
      injection hp with hp
      subst hp
      exact hinv number q x y hq hsol
    · rw [if_neg hn] at hp
      exact hinv n p x y hp hsol

/-- Witness for C5: the empty state satisfies the invariant, and so does the
state after submitting problem 15. -/
theorem c5_solution_invariant_preserved_witness : SolutionInvariant state1 :=
  (c5_solution_invariant_preserved 1 state0
      (by intro n p x y hp hsol; simp [state0] at hp)).1
    1 15 100 state1 rfl

/-- The canonical primes below 100. -/
def primes_below_100 : List Nat :=
  [2, 3, 5, 7, 11, 13, 17, 19, 23, 29, 31, 37, 41, 43, 47, 53, 59, 61, 67, 71,
   73, 79, 83, 89, 97]

/-- C8: on `[0, 100)` the PrimalityOracle agrees exactly with the canonical
prime set, and in particular rejects every `n < 2`. (Determinism and purity
hold by construction: `is_prime` is a function of its argument alone.) -/
theorem c8_is_prime_small (n : Nat) (h : n < 100) :
    (is_prime n = true ↔ n ∈ primes_below_100) ∧ (n < 2 → is_prime n = false) := by
  revert n
  decide

/-- Witness for C8: 97 is below 100, `is_prime` accepts it, and it is in the
canonical list. -/
theorem c8_is_prime_small_witness :
    (is_prime 97 = true ↔ 97 ∈ primes_below_100) ∧ (97 < 2 → is_prime 97 = false) :=
  c8_is_prime_small 97 (by decide)

theorem checked_mul_comm (a b : Nat) : checked_mul a b = checked_mul b a := by
  unfold checked_mul
  rw [Nat.mul_comm]

/-- Swapping the proposed factors does not change the outcome of
`resolve_problem` at all: the overflow check, the product comparison and the
two primality checks are symmetric, the payout ignores the factors, and (the
`mutate` being a no-op) so does the stored record. -/
theorem resolve_problem_swap (ed : Balance) (s : State) (who : AccountId)
    (number a b : Nat) :
    resolve_problem ed s who number a b = resolve_problem ed s who number b a := by
  unfold resolve_problem
  cases s.problems number with
  | none => rfl
  | some p =>
    by_cases hr : p.resolver.isSome = true
    · simp [hr]
    · simp only [hr, if_false]
      rw [checked_mul_comm b a]
      cases checked_mul a b with
      | none => rfl
      | some m =>
        by_cases h1 : is_prime a = true <;> by_cases h2 : is_prime b = true <;>
          by_cases h3 : m = number <;>
          simp [h1, h2, h3]

/-- C9: from any state, `resolve_problem` with factors `(a, b)` succeeds
exactly when it succeeds with factors `(b, a)` — factor order never decides
validity. -/
theorem c9_factor_order_irrelevant (ed : Balance) (s : State) (who : AccountId)
    (number a b : Nat) :
    (resolve_problem ed s who number a b).isOk = true ↔
    (resolve_problem ed s who number b a).isOk = true := by
  rw [resolve_problem_swap ed s who number a b]

/-- C10: `submit_problem` never inspects the submitted number. Whatever the
number — 0, 1, a prime, a composite with many factors — as long as it is not
already present and the reward reservation succeeds, the call succeeds and
inserts the unresolved record. -/
theorem c10_submit_accepts_any_number (s : State) (who : AccountId)
    (number : Number) (reward : Balance) (l : Ledger)
    (habs : s.problems number = none)
    (hres : Ledger.reserve s.ledger who reward = some l) :
    submit_problem s who number reward =
      .ok { problems := mapInsert s.problems number
              (some { number := number, reward := reward, solution := none,
                      submitter := who, resolver := none }),
            ledger := l } := by
  unfold submit_problem
  rw [habs]
  rw [hres]
  rfl

/-- The ledger after account 1 reserves 50 out of its 1000 free units. -/
def witLedger : Ledger :=
  { free := setBal ledger0.free 1 950, reserved := setBal ledger0.reserved 1 50 }

/-- Witness for C10: the number 0 — which no factor pair can ever resolve —
is accepted without complaint and its reward reserved. -/
theorem c10_submit_accepts_any_number_witness :
    submit_problem state0 1 0 50 =
      .ok { problems := mapInsert state0.problems 0
              (some { number := 0, reward := 50, solution := none,
                      submitter := 1, resolver := none }),
            ledger := witLedger } :=
  c10_submit_accepts_any_number state0 1 0 50 witLedger rfl rfl

end Mangata
